import Mathlib

/-!
Verification development for the recraft-mcp-server repository.

The definitions below are a shallow embedding of the repository's
argument-validation and response-shaping layer:

* src/schemas/recraft-styles.ts and src/schemas/recraft.ts
  (the Zod schemas, embedded as total Lean functions from structured
  inputs to Except-of-issue-list results),
* src/schemas/validation.ts (formatZodError, validateSchema),
* src/tools/handlers.ts and src/tools/recraft-handlers.ts
  (the validate-then-call pipelines),
* src/services/recraft/index.ts (request-body construction),
* the FastMCP tool dispatch layer in src/server.ts
  (the per-tool execute functions that shape upstream responses).

JavaScript numbers are modelled as either NaN or an exact rational; the
inputs exercised by the development only involve exact decimal literals.
Behaviour of external libraries (Zod internals, Node fs/path) is modelled
where the repository code depends on it, and each such model is marked in
its doc comment.
-/

deriving instance DecidableEq for Except

namespace Recraft

/-- Character-list prefix test (kernel-friendly form of startsWith). -/
def listIsPrefixOf : List Char → List Char → Bool
  | [], _ => true
  | _ :: _, [] => false
  | a :: as, b :: bs => a == b && listIsPrefixOf as bs

/-- String prefix test, modelling the JavaScript String.startsWith. -/
def strStartsWith (s pre : String) : Bool :=
  listIsPrefixOf pre.toList s.toList

/-- String suffix test (used for the path-join separator check). -/
def strEndsWith (s suf : String) : Bool :=
  listIsPrefixOf suf.toList.reverse s.toList.reverse

/-- Model of a JavaScript number: NaN or a finite value (as an exact
rational; the repository only manipulates exact decimal literals). -/
inductive JNum where
  | nan
  | fin (q : ℚ)
  deriving DecidableEq, Repr

/-- Digits of a numeral prefix (longest run of decimal digits). -/
def takeDigits (cs : List Char) : List Char × List Char :=
  (cs.takeWhile (·.isDigit), cs.dropWhile (·.isDigit))

/-- Numeric value of a list of decimal digit characters. -/
def digitsToNat (ds : List Char) : Nat :=
  ds.foldl (fun a c => a * 10 + (c.toNat - 48)) 0

/-- Splits an optional leading sign; returns (isNegative, rest). -/
def splitSign : List Char → Bool × List Char
  | '-' :: r => (true, r)
  | '+' :: r => (false, r)
  | r => (false, r)

/-- Model of the JavaScript builtin parseInt(s, 10): skip leading
whitespace, read an optional sign and the longest run of decimal digits;
NaN when no digit is found. (Exotic inputs such as Infinity literals are
outside the modelled input space.) -/
def parseIntJS (s : String) : JNum :=
  let cs := s.toList.dropWhile (·.isWhitespace)
  let (neg, rest) := splitSign cs
  let (ds, _) := takeDigits rest
  if ds.isEmpty then .nan
  else
    let v : ℚ := (digitsToNat ds : ℚ)
    .fin (if neg then -v else v)

/-- Model of the JavaScript builtin parseFloat: skip leading whitespace,
read an optional sign, integer digits and an optional fraction part; NaN
when no digit is found. (Exponent and Infinity forms are outside the
modelled input space.) -/
def parseFloatJS (s : String) : JNum :=
  let cs := s.toList.dropWhile (·.isWhitespace)
  let (neg, rest) := splitSign cs
  let (ids, rest2) := takeDigits rest
  let fds : List Char :=
    match rest2 with
    | '.' :: r3 => (takeDigits r3).1
    | _ => []
  if ids.isEmpty && fds.isEmpty then .nan
  else
    let intPart : ℚ := (digitsToNat ids : ℚ)
    let fracPart : ℚ := (digitsToNat fds : ℚ) / ((10 : ℚ) ^ fds.length)
    let v := intPart + fracPart
    .fin (if neg then -v else v)

/-- Substring occurrence test on character lists. -/
def containsSub (pat : List Char) : List Char → Bool
  | [] => pat.isEmpty
  | c :: rest => listIsPrefixOf pat (c :: rest) || containsSub pat rest

/-- Substring test, modelling the JavaScript String.prototype.includes. -/
def strContains (s pat : String) : Bool :=
  containsSub pat.toList s.toList

/-- Zod issue codes used by the schemas of this repository. -/
inductive ZCode where
  | invalidType
  | invalidString
  | invalidEnumValue
  | invalidUnion
  | tooSmall
  | tooBig
  | custom
  deriving DecidableEq, Repr

/-- One Zod validation issue: the field path, the issue code, the
human-readable message, and (for enum issues) the received value. -/
structure ZIssue where
  path : List String
  code : ZCode
  message : String
  received : String := ""
  deriving DecidableEq, Repr

/-- Result of a safeParse: the validated (possibly transformed) value, or
the collected list of issues. -/
abbrev ZResult (α : Type) := Except (List ZIssue) α

/-- Vocabulary table: the Recraft V3 styles, in the declaration order of
RecraftStyleV3Schema (src/schemas/recraft-styles.ts). -/
def recraftV3Styles : List String :=
  ["any", "realistic_image", "digital_illustration", "vector_illustration",
   "icon", "logo_raster"]

/-- Vocabulary table: V3 substyles for realistic_image. -/
def realisticImageSubstylesV3 : List String :=
  ["b_and_w", "enterprise", "evening_light", "faded_nostalgia", "forest_life",
   "hard_flash", "hdr", "motion_blur", "mystic_naturalism", "natural_light",
   "natural_tones", "organic_calm", "real_life_glow", "retro_realism",
   "retro_snapshot", "studio_portrait", "urban_drama", "village_realism",
   "warm_folk"]

/-- Vocabulary table: V3 substyles for digital_illustration. -/
def digitalIllustrationSubstylesV3 : List String :=
  ["2d_art_poster", "2d_art_poster_2", "antiquarian", "bold_fantasy",
   "child_book", "child_books", "cover", "crosshatch", "digital_engraving",
   "engraving_color", "expressionism", "freehand_details", "grain", "grain_20",
   "graphic_intensity", "hand_drawn", "hand_drawn_outline", "handmade_3d",
   "hard_comics", "infantile_sketch", "long_shadow", "modern_folk",
   "multicolor", "neon_calm", "noir", "nostalgic_pastel", "outline_details",
   "pastel_gradient", "pastel_sketch", "pixel_art", "plastic", "pop_art",
   "pop_renaissance", "seamless", "street_art", "tablet_sketch", "urban_glow",
   "urban_sketching", "vanilla_dreams", "young_adult_book",
   "young_adult_book_2"]

/-- Vocabulary table: V3 substyles for vector_illustration. -/
def vectorIllustrationSubstylesV3 : List String :=
  ["bold_stroke", "chemistry", "colored_stencil", "contour_pop_art",
   "cosmics", "cutout", "depressive", "editorial", "emotional_flat",
   "engraving", "infographical", "line_art", "line_circuit", "linocut",
   "marker_outline", "mosaic", "naivector", "roundish_flat", "seamless",
   "segmented_colors", "sharp_contrast", "thin", "vector_photo",
   "vivid_shapes"]

/-- Vocabulary table: V3 substyles for logo_raster. -/
def logoRasterSubstylesV3 : List String :=
  ["emblem_graffiti", "emblem_pop_art", "emblem_punk", "emblem_stamp",
   "emblem_vintage"]

/-- Union of all V3 substyle vocabularies, in the branch order of
RecraftSubstyleV3Schema. -/
def recraftV3Substyles : List String :=
  realisticImageSubstylesV3 ++ digitalIllustrationSubstylesV3 ++
  vectorIllustrationSubstylesV3 ++ logoRasterSubstylesV3

/-- Vocabulary table: valid image sizes (RecraftImageSizeSchema). -/
def recraftImageSizes : List String :=
  ["1024x1024", "1365x1024", "1024x1365", "1536x1024", "1024x1536",
   "1820x1024", "1024x1820", "1024x2048", "2048x1024", "1434x1024",
   "1024x1434", "1024x1280", "1280x1024", "1024x1707", "1707x1024"]

/-- Dot-joined issue path, as issue.path.join in formatZodError. -/
def pathJoin (p : List String) : String :=
  String.intercalate "." p

/-- Rendering of one issue, embedded from formatZodError in
src/schemas/validation.ts: an invalid_enum_value issue whose dot-joined
path contains "style" gets the special style message listing the values of
RecraftStyleV3Schema; every other issue is rendered as the path, a colon
separator when the joined path is nonempty, and the message. -/
def renderIssue (i : ZIssue) : String :=
  let p := pathJoin i.path
  if strContains p "style" && i.code == ZCode.invalidEnumValue then
    "Invalid style: \"" ++ i.received ++ "\". Valid options are: " ++
      String.intercalate ", " recraftV3Styles
  else
    (if p == "" then "" else p ++ ": ") ++ i.message

/-- Embedding of formatZodError: render every issue and join with
a semicolon separator. -/
def formatZodError (issues : List ZIssue) : String :=
  String.intercalate "; " (issues.map renderIssue)

/-!
Field-level input model. A caller-supplied field of string type is either
absent, a string, or a value of some other runtime type (carrying the name
of that type for the Zod wrong-type message). Likewise for boolean fields
and for the number-or-string union fields.
-/

/-- Input state of a string-typed field. -/
inductive SField where
  | missing
  | str (s : String)
  | otherVal (kind : String)
  deriving DecidableEq, Repr

/-- Input state of a boolean-typed field. -/
inductive BField where
  | missing
  | bool (b : Bool)
  | otherVal (kind : String)
  deriving DecidableEq, Repr

/-- Input value of a number-or-string union field (n, strength). -/
inductive NumOrStr where
  | num (x : JNum)
  | str (s : String)
  | otherVal (kind : String)
  deriving DecidableEq, Repr

/-- Merge two field results, concatenating issue lists (Zod collects the
issues of every field rather than stopping at the first). -/
def zseq {α β : Type} : ZResult α → ZResult β → ZResult (α × β)
  | .ok a, .ok b => .ok (a, b)
  | .ok _, .error e => .error e
  | .error e, .ok _ => .error e
  | .error e₁, .error e₂ => .error (e₁ ++ e₂)

/-- Issues contributed by one field result. -/
def fieldIssues {α : Type} : ZResult α → List ZIssue
  | .ok _ => []
  | .error e => e

/-- Value of a field result, with a default for the (unused) error case. -/
def fieldVal {α : Type} (d : α) : ZResult α → α
  | .ok a => a
  | .error _ => d

/-- Optional plain string field (z.string().optional()). -/
def optStringField (name : String) (f : SField) : ZResult (Option String) :=
  match f with
  | .missing => .ok none
  | .str s => .ok (some s)
  | .otherVal k =>
    .error [⟨[name], .invalidType, "Expected string, received " ++ k, ""⟩]

/-- Modelled behaviour of the Zod string .url() check (Zod library code,
external to the repository): the string must be an absolute http or https
URL; we model it as an http(s) scheme prefix followed by a nonempty
remainder. Every URL appearing in this development is clearly valid. -/
def isValidUrl (s : String) : Bool :=
  (strStartsWith s "http://" && s.length > 7) ||
  (strStartsWith s "https://" && s.length > 8)

/-- Optional URL string field (z.string().url().optional()). -/
def urlOptField (name : String) (f : SField) : ZResult (Option String) :=
  match f with
  | .missing => .ok none
  | .str s =>
    if isValidUrl s then .ok (some s)
    else .error [⟨[name], .invalidString, "Invalid url", ""⟩]
  | .otherVal k =>
    .error [⟨[name], .invalidType, "Expected string, received " ++ k, ""⟩]

/-- Optional boolean field (z.boolean().optional()). -/
def optBoolField (name : String) (f : BField) : ZResult (Option Bool) :=
  match f with
  | .missing => .ok none
  | .bool b => .ok (some b)
  | .otherVal k =>
    .error [⟨[name], .invalidType, "Expected boolean, received " ++ k, ""⟩]

/-- Optional enum field (z.enum([...]).optional()). The issue carries the
received string; the enum-mismatch message text is a Zod-internal default
and is modelled abbreviated, since no code of the repository inspects it. -/
def enumOptField (name : String) (allowed : List String) (f : SField) :
    ZResult (Option String) :=
  match f with
  | .missing => .ok none
  | .str s =>
    if allowed.contains s then .ok (some s)
    else .error [⟨[name], .invalidEnumValue, "Invalid enum value", s⟩]
  | .otherVal k =>
    .error [⟨[name], .invalidType, "Expected string, received " ++ k, ""⟩]

/-- Optional union-of-enums field, used for substyle
(RecraftSubstyleV3Schema: a z.union of four z.enum schemas; a string in
none of them yields one invalid_union issue). -/
def substyleOptField (name : String) (f : SField) : ZResult (Option String) :=
  match f with
  | .missing => .ok none
  | .str s =>
    if recraftV3Substyles.contains s then .ok (some s)
    else .error [⟨[name], .invalidUnion, "Invalid input", ""⟩]
  | .otherVal _ =>
    .error [⟨[name], .invalidUnion, "Invalid input", ""⟩]

/-- Required nonempty string field, such as prompt
(z.string().min(1, msg)): absent is Required, a wrong type is an
invalid_type issue, the empty string raises the schema's custom
too_small message. -/
def nonemptyStringField (name msg : String) (f : SField) : ZResult String :=
  match f with
  | .missing => .error [⟨[name], .invalidType, "Required", ""⟩]
  | .str s =>
    if s.length < 1 then .error [⟨[name], .tooSmall, msg, ""⟩]
    else .ok s
  | .otherVal k =>
    .error [⟨[name], .invalidType, "Expected string, received " ++ k, ""⟩]

/-- Embedding of the n field union from the schemas
(z.union of z.number().int().min(1).max(6) and
z.string().transform(parseInt)): a number passes exactly when it is an
integer between 1 and 6; a string always passes, transformed by parseInt
with no further check; any other type fails the union. -/
def nFieldParse (name : String) (v : NumOrStr) : ZResult JNum :=
  match v with
  | .num .nan => .error [⟨[name], .invalidUnion, "Invalid input", ""⟩]
  | .num (.fin q) =>
    if q.den == 1 && decide (1 ≤ q) && decide (q ≤ 6) then .ok (.fin q)
    else .error [⟨[name], .invalidUnion, "Invalid input", ""⟩]
  | .str s => .ok (parseIntJS s)
  | .otherVal _ => .error [⟨[name], .invalidUnion, "Invalid input", ""⟩]

/-- Optional n field (the union wrapped in .optional()). -/
def optNField (name : String) (v : Option NumOrStr) : ZResult (Option JNum) :=
  match v with
  | none => .ok none
  | some w =>
    match nFieldParse name w with
    | .ok x => .ok (some x)
    | .error e => .error e

/-- Embedding of the strength field union from ImageToImageArgsSchema
(z.union of z.number().min(0).max(1) and
z.string().transform(parseFloat)): a number passes exactly when it lies in
the closed interval 0 to 1; a string always passes, transformed by
parseFloat with no further check. -/
def strengthFieldParse (v : NumOrStr) : ZResult JNum :=
  match v with
  | .num .nan => .error [⟨["strength"], .invalidUnion, "Invalid input", ""⟩]
  | .num (.fin q) =>
    if decide (0 ≤ q) && decide (q ≤ 1) then .ok (.fin q)
    else .error [⟨["strength"], .invalidUnion, "Invalid input", ""⟩]
  | .str s => .ok (parseFloatJS s)
  | .otherVal _ => .error [⟨["strength"], .invalidUnion, "Invalid input", ""⟩]

/-!
SaveImageToDiskArgsSchema (src/schemas/recraft.ts). The schema declares
image_url (optional URL string), image_b64 (optional string) and file_path
(required nonempty absolute string), then refines: at least one image
source must be present, reported at path image_source. Zod objects strip
unknown keys, so output_path and filename supplied by a caller do not
survive validation and do not appear in the output type.
-/

/-- Caller-supplied fields for save_image_to_disk. The output_path and
filename fields are modelled because callers (the tool definition, the
handler and the generate_image save branch) supply them; the schema itself
ignores and strips them. -/
structure SaveInput where
  image_url : SField := .missing
  image_b64 : SField := .missing
  file_path : SField := .missing
  output_path : SField := .missing
  filename : SField := .missing
  deriving DecidableEq, Repr

/-- Top-level input to the save schema: a non-object value (carrying its
runtime type name) or an object of fields. -/
inductive SaveTop where
  | nonObject (kind : String)
  | obj (i : SaveInput)
  deriving DecidableEq, Repr

/-- Validated output of SaveImageToDiskArgsSchema: exactly the three
declared fields, unknown keys stripped. -/
structure SaveArgs where
  image_url : Option String
  image_b64 : Option String
  file_path : String
  deriving DecidableEq, Repr

/-- The file_path field of SaveImageToDiskArgsSchema:
z.string().min(1, "File path cannot be empty").refine(startsWith "/").
The refinement runs only when the inner string checks pass. -/
def saveFilePathField (f : SField) : ZResult String :=
  match f with
  | .missing => .error [⟨["file_path"], .invalidType, "Required", ""⟩]
  | .str s =>
    if s.length < 1 then
      .error [⟨["file_path"], .tooSmall, "File path cannot be empty", ""⟩]
    else if strStartsWith s "/" then .ok s
    else
      .error [⟨["file_path"], .custom,
        "File path must be absolute (start with " ++ "\"/\")", ""⟩]
  | .otherVal k =>
    .error [⟨["file_path"], .invalidType, "Expected string, received " ++ k, ""⟩]

/-- Embedding of SaveImageToDiskArgsSchema.safeParse. Field issues are
collected in shape-declaration order; the object-level refinement (either
image_url or image_b64 must be provided, path image_source) runs only when
the object itself parsed cleanly. -/
def saveImageToDiskArgsParse (t : SaveTop) : ZResult SaveArgs :=
  match t with
  | .nonObject k =>
    .error [⟨[], .invalidType, "Expected object, received " ++ k, ""⟩]
  | .obj i =>
    let eu := urlOptField "image_url" i.image_url
    let eb := optStringField "image_b64" i.image_b64
    let ep := saveFilePathField i.file_path
    let issues := fieldIssues eu ++ fieldIssues eb ++ fieldIssues ep
    if issues.isEmpty then
      let u := fieldVal none eu
      let b := fieldVal none eb
      if u.isSome || b.isSome then .ok ⟨u, b, fieldVal "" ep⟩
      else
        .error [⟨["image_source"], .custom,
          "Either image_url or image_b64 must be provided", ""⟩]
    else .error issues

/-!
GenerateImageArgsSchema (src/schemas/recraft.ts): RecraftBaseArgsSchema
(model, response_format) extended with prompt, n, style_id, style,
substyle, size, negative_prompt, controls, text_layout, save_to_disk and
file_path, refined so that a truthy save_to_disk requires file_path, with
the refinement issue reported at path save_to_disk.
-/

/-- Input state of the controls bundle. The leaves are given as JS numbers
or booleans directly; RecraftControlsSchema checks artistic_level against
0..5 and every RGB channel against integer 0..255. -/
structure ControlsInput where
  artistic_level : Option JNum := none
  colors : Option (List (JNum × JNum × JNum)) := none
  background_color : Option (JNum × JNum × JNum) := none
  no_text : Option Bool := none
  deriving DecidableEq, Repr

/-- Validated controls value. -/
structure Controls where
  artistic_level : Option ℚ := none
  colors : Option (List (ℚ × ℚ × ℚ)) := none
  background_color : Option (ℚ × ℚ × ℚ) := none
  no_text : Option Bool := none
  deriving DecidableEq, Repr

/-- One RGB channel check (z.number().int().min(0).max(255)) at the given
issue path. -/
def rgbChannelCheck (path : List String) (x : JNum) : ZResult ℚ :=
  match x with
  | .nan => .error [⟨path, .invalidType, "Expected number, received nan", ""⟩]
  | .fin q =>
    if q.den != 1 then
      .error [⟨path, .invalidType, "Expected integer, received float", ""⟩]
    else if decide (q < 0) then
      .error [⟨path, .tooSmall, "Number must be greater than or equal to 0", ""⟩]
    else if decide (255 < q) then
      .error [⟨path, .tooBig, "Number must be less than or equal to 255", ""⟩]
    else .ok q

/-- RecraftColorSchema at the given base path (the rgb tuple of three
channel checks). -/
def colorCheck (base : List String) (c : JNum × JNum × JNum) :
    ZResult (ℚ × ℚ × ℚ) :=
  zseq (rgbChannelCheck (base ++ ["rgb", "0"]) c.1)
      (zseq (rgbChannelCheck (base ++ ["rgb", "1"]) c.2.1)
        (rgbChannelCheck (base ++ ["rgb", "2"]) c.2.2)) |>.map
    fun p => (p.1, p.2.1, p.2.2)

/-- List of color checks with indexed paths. -/
def colorsCheck (base : List String) (cs : List (JNum × JNum × JNum)) :
    ZResult (List (ℚ × ℚ × ℚ)) :=
  (cs.enum.map fun p => colorCheck (base ++ [toString p.1]) p.2).foldr
    (fun r acc => (zseq r acc).map fun q => q.1 :: q.2) (.ok [])

/-- RecraftControlsSchema embedding at path controls. -/
def controlsCheck (c : ControlsInput) : ZResult Controls :=
  let ea : ZResult (Option ℚ) :=
    match c.artistic_level with
    | none => .ok none
    | some .nan =>
      .error [⟨["controls", "artistic_level"], .invalidType,
        "Expected number, received nan", ""⟩]
    | some (.fin q) =>
      if decide (q < 0) then
        .error [⟨["controls", "artistic_level"], .tooSmall,
          "Number must be greater than or equal to 0", ""⟩]
      else if decide (5 < q) then
        .error [⟨["controls", "artistic_level"], .tooBig,
          "Number must be less than or equal to 5", ""⟩]
      else .ok (some q)
  let ec : ZResult (Option (List (ℚ × ℚ × ℚ))) :=
    match c.colors with
    | none => .ok none
    | some cs => (colorsCheck ["controls", "colors"] cs).map some
  let ebg : ZResult (Option (ℚ × ℚ × ℚ)) :=
    match c.background_color with
    | none => .ok none
    | some b => (colorCheck ["controls", "background_color"] b).map some
  (zseq ea (zseq ec ebg)).map fun p =>
    ⟨p.1, p.2.1, p.2.2, c.no_text⟩

/-- Optional controls field. -/
def controlsOptField (c : Option ControlsInput) : ZResult (Option Controls) :=
  match c with
  | none => .ok none
  | some ci => (controlsCheck ci).map some

/-- Text layout element: a literal string and a four-point bounding box,
passed through opaquely (RecraftTextLayoutElementSchema performs only
structural typing, which the typed input model guarantees). -/
structure TextLayoutElement where
  text : String
  bbox : (ℚ × ℚ) × (ℚ × ℚ) × (ℚ × ℚ) × (ℚ × ℚ)
  deriving DecidableEq, Repr

/-- The file_path field of GenerateImageArgsSchema:
z.string().min(1).refine(path not truthy, or absolute).optional().
An empty string already fails min(1); a nonempty relative string fails the
refinement. -/
def genFilePathOptField (f : SField) : ZResult (Option String) :=
  match f with
  | .missing => .ok none
  | .str s =>
    if s.length < 1 then
      .error [⟨["file_path"], .tooSmall, "File path cannot be empty", ""⟩]
    else if strStartsWith s "/" then .ok (some s)
    else
      .error [⟨["file_path"], .custom,
        "File path must be absolute (start with " ++ "\"/\")", ""⟩]
  | .otherVal k =>
    .error [⟨["file_path"], .invalidType, "Expected string, received " ++ k, ""⟩]

/-- Caller-supplied fields for generate_image, in the merged shape order of
RecraftBaseArgsSchema.extend. Unknown keys such as output_path or filename
are stripped by Zod and have no effect on validation, so they are not
modelled here. -/
structure GenInput where
  model : SField := .missing
  response_format : SField := .missing
  prompt : SField := .missing
  n : Option NumOrStr := none
  style_id : SField := .missing
  style : SField := .missing
  substyle : SField := .missing
  size : SField := .missing
  negative_prompt : SField := .missing
  controls : Option ControlsInput := none
  text_layout : Option (List TextLayoutElement) := none
  save_to_disk : BField := .missing
  file_path : SField := .missing
  deriving DecidableEq, Repr

/-- Top-level input to the generate schema. -/
inductive GenTop where
  | nonObject (kind : String)
  | obj (i : GenInput)
  deriving DecidableEq, Repr

/-- Validated output of GenerateImageArgsSchema. -/
structure GenArgs where
  model : Option String := none
  response_format : Option String := none
  prompt : String
  n : Option JNum := none
  style_id : Option String := none
  style : Option String := none
  substyle : Option String := none
  size : Option String := none
  negative_prompt : Option String := none
  controls : Option Controls := none
  text_layout : Option (List TextLayoutElement) := none
  save_to_disk : Option Bool := none
  file_path : Option String := none
  deriving DecidableEq, Repr

/-- Embedding of GenerateImageArgsSchema.safeParse. Field issues are
collected in shape order; the cross-field refinement (a truthy
save_to_disk requires file_path, reported at path save_to_disk with the
schema's custom message) runs only when every field parsed cleanly. -/
def generateImageArgsParse (t : GenTop) : ZResult GenArgs :=
  match t with
  | .nonObject k =>
    .error [⟨[], .invalidType, "Expected object, received " ++ k, ""⟩]
  | .obj i =>
    let em := enumOptField "model" ["recraftv2", "recraftv3"] i.model
    let er := enumOptField "response_format" ["url", "b64_json"] i.response_format
    let ep := nonemptyStringField "prompt" "Prompt cannot be empty" i.prompt
    let en := optNField "n" i.n
    let esi := optStringField "style_id" i.style_id
    let est := enumOptField "style" recraftV3Styles i.style
    let esu := substyleOptField "substyle" i.substyle
    let esz := enumOptField "size" recraftImageSizes i.size
    let eng := optStringField "negative_prompt" i.negative_prompt
    let ect := controlsOptField i.controls
    let esd := optBoolField "save_to_disk" i.save_to_disk
    let efp := genFilePathOptField i.file_path
    let issues :=
      fieldIssues em ++ fieldIssues er ++ fieldIssues ep ++ fieldIssues en ++
      fieldIssues esi ++ fieldIssues est ++ fieldIssues esu ++
      fieldIssues esz ++ fieldIssues eng ++ fieldIssues ect ++
      fieldIssues esd ++ fieldIssues efp
    if issues.isEmpty then
      let args : GenArgs :=
        { model := fieldVal none em
          response_format := fieldVal none er
          prompt := fieldVal "" ep
          n := fieldVal none en
          style_id := fieldVal none esi
          style := fieldVal none est
          substyle := fieldVal none esu
          size := fieldVal none esz
          negative_prompt := fieldVal none eng
          controls := fieldVal none ect
          text_layout := i.text_layout
          save_to_disk := fieldVal none esd
          file_path := fieldVal none efp }
      if args.save_to_disk == some true && args.file_path.isNone then
        .error [⟨["save_to_disk"], .custom,
          "file_path is required when save_to_disk is true", ""⟩]
      else .ok args
    else .error issues

/-!
Binary-payload fields (BufferOrFileSchema): a z.custom whose predicate
accepts a Buffer, a File, any non-null object with a buffer property, or a
string path, and rejects everything else with the schema's custom message.
-/

/-- Input state of a Buffer-or-File field. -/
inductive BufField where
  | missing
  | bufferVal
  | fileVal
  | objWithBuffer
  | strPath (s : String)
  | otherVal (kind : String)
  deriving DecidableEq, Repr

/-- The isBufferOrFile predicate from src/schemas/recraft.ts; an absent
value (undefined) satisfies none of its four cases. -/
def isBufferOrFile : BufField → Bool
  | .bufferVal => true
  | .fileVal => true
  | .objWithBuffer => true
  | .strPath _ => true
  | .missing => false
  | .otherVal _ => false

/-- BufferOrFileSchema at the given path. -/
def bufferOrFileField (path : List String) (f : BufField) : ZResult BufField :=
  if isBufferOrFile f then .ok f
  else .error [⟨path, .custom, "Must be a Buffer, File, or string path", ""⟩]

/-- Required strength field: the union wrapped as a required object key.
A missing required union field yields one invalid_union issue (the Zod
union reports code invalid_union with its default message). -/
def strengthRequiredField (v : Option NumOrStr) : ZResult JNum :=
  match v with
  | none => .error [⟨["strength"], .invalidUnion, "Invalid input", ""⟩]
  | some w => strengthFieldParse w

/-- Caller-supplied fields for image_to_image, in merged shape order. -/
structure I2IInput where
  model : SField := .missing
  response_format : SField := .missing
  image : BufField := .missing
  prompt : SField := .missing
  strength : Option NumOrStr := none
  n : Option NumOrStr := none
  style_id : SField := .missing
  style : SField := .missing
  substyle : SField := .missing
  negative_prompt : SField := .missing
  controls : Option ControlsInput := none
  deriving DecidableEq, Repr

/-- Top-level input to the image_to_image schema. -/
inductive I2ITop where
  | nonObject (kind : String)
  | obj (i : I2IInput)
  deriving DecidableEq, Repr

/-- Validated output of ImageToImageArgsSchema. -/
structure I2IArgs where
  model : Option String := none
  response_format : Option String := none
  image : BufField
  prompt : String
  strength : JNum
  n : Option JNum := none
  style_id : Option String := none
  style : Option String := none
  substyle : Option String := none
  negative_prompt : Option String := none
  controls : Option Controls := none
  deriving DecidableEq, Repr

/-- Embedding of ImageToImageArgsSchema.safeParse. -/
def imageToImageArgsParse (t : I2ITop) : ZResult I2IArgs :=
  match t with
  | .nonObject k =>
    .error [⟨[], .invalidType, "Expected object, received " ++ k, ""⟩]
  | .obj i =>
    let em := enumOptField "model" ["recraftv2", "recraftv3"] i.model
    let er := enumOptField "response_format" ["url", "b64_json"] i.response_format
    let eim := bufferOrFileField ["image"] i.image
    let ep := nonemptyStringField "prompt" "Prompt cannot be empty" i.prompt
    let es := strengthRequiredField i.strength
    let en := optNField "n" i.n
    let esi := optStringField "style_id" i.style_id
    let est := enumOptField "style" recraftV3Styles i.style
    let esu := substyleOptField "substyle" i.substyle
    let eng := optStringField "negative_prompt" i.negative_prompt
    let ect := controlsOptField i.controls
    let issues :=
      fieldIssues em ++ fieldIssues er ++ fieldIssues eim ++ fieldIssues ep ++
      fieldIssues es ++ fieldIssues en ++ fieldIssues esi ++ fieldIssues est ++
      fieldIssues esu ++ fieldIssues eng ++ fieldIssues ect
    if issues.isEmpty then
      .ok
        { model := fieldVal none em
          response_format := fieldVal none er
          image := fieldVal .missing eim
          prompt := fieldVal "" ep
          strength := fieldVal .nan es
          n := fieldVal none en
          style_id := fieldVal none esi
          style := fieldVal none est
          substyle := fieldVal none esu
          negative_prompt := fieldVal none eng
          controls := fieldVal none ect }
    else .error issues

/-- Caller-supplied fields for inpaint_image. -/
structure InpaintInput where
  model : SField := .missing
  response_format : SField := .missing
  image : BufField := .missing
  mask : BufField := .missing
  prompt : SField := .missing
  n : Option NumOrStr := none
  style_id : SField := .missing
  style : SField := .missing
  substyle : SField := .missing
  negative_prompt : SField := .missing
  deriving DecidableEq, Repr

/-- Top-level input to the inpaint schema. -/
inductive InpaintTop where
  | nonObject (kind : String)
  | obj (i : InpaintInput)
  deriving DecidableEq, Repr

/-- Validated output of InpaintImageArgsSchema. -/
structure InpaintArgs where
  model : Option String := none
  response_format : Option String := none
  image : BufField
  mask : BufField
  prompt : String
  n : Option JNum := none
  style_id : Option String := none
  style : Option String := none
  substyle : Option String := none
  negative_prompt : Option String := none
  deriving DecidableEq, Repr

/-- Embedding of InpaintImageArgsSchema.safeParse. -/
def inpaintImageArgsParse (t : InpaintTop) : ZResult InpaintArgs :=
  match t with
  | .nonObject k =>
    .error [⟨[], .invalidType, "Expected object, received " ++ k, ""⟩]
  | .obj i =>
    let em := enumOptField "model" ["recraftv2", "recraftv3"] i.model
    let er := enumOptField "response_format" ["url", "b64_json"] i.response_format
    let eim := bufferOrFileField ["image"] i.image
    let emk := bufferOrFileField ["mask"] i.mask
    let ep := nonemptyStringField "prompt" "Prompt cannot be empty" i.prompt
    let en := optNField "n" i.n
    let esi := optStringField "style_id" i.style_id
    let est := enumOptField "style" recraftV3Styles i.style
    let esu := substyleOptField "substyle" i.substyle
    let eng := optStringField "negative_prompt" i.negative_prompt
    let issues :=
      fieldIssues em ++ fieldIssues er ++ fieldIssues eim ++ fieldIssues emk ++
      fieldIssues ep ++ fieldIssues en ++ fieldIssues esi ++ fieldIssues est ++
      fieldIssues esu ++ fieldIssues eng
    if issues.isEmpty then
      .ok
        { model := fieldVal none em
          response_format := fieldVal none er
          image := fieldVal .missing eim
          mask := fieldVal .missing emk
          prompt := fieldVal "" ep
          n := fieldVal none en
          style_id := fieldVal none esi
          style := fieldVal none est
          substyle := fieldVal none esu
          negative_prompt := fieldVal none eng }
    else .error issues

/-- Caller-supplied fields for replace_background. -/
structure ReplaceBgInput where
  model : SField := .missing
  response_format : SField := .missing
  image : BufField := .missing
  prompt : SField := .missing
  n : Option NumOrStr := none
  style_id : SField := .missing
  style : SField := .missing
  substyle : SField := .missing
  negative_prompt : SField := .missing
  deriving DecidableEq, Repr

/-- Top-level input to the replace_background schema. -/
inductive ReplaceBgTop where
  | nonObject (kind : String)
  | obj (i : ReplaceBgInput)
  deriving DecidableEq, Repr

/-- Validated output of ReplaceBackgroundArgsSchema. -/
structure ReplaceBgArgs where
  model : Option String := none
  response_format : Option String := none
  image : BufField
  prompt : String
  n : Option JNum := none
  style_id : Option String := none
  style : Option String := none
  substyle : Option String := none
  negative_prompt : Option String := none
  deriving DecidableEq, Repr

/-- Embedding of ReplaceBackgroundArgsSchema.safeParse. -/
def replaceBackgroundArgsParse (t : ReplaceBgTop) : ZResult ReplaceBgArgs :=
  match t with
  | .nonObject k =>
    .error [⟨[], .invalidType, "Expected object, received " ++ k, ""⟩]
  | .obj i =>
    let em := enumOptField "model" ["recraftv2", "recraftv3"] i.model
    let er := enumOptField "response_format" ["url", "b64_json"] i.response_format
    let eim := bufferOrFileField ["image"] i.image
    let ep := nonemptyStringField "prompt" "Prompt cannot be empty" i.prompt
    let en := optNField "n" i.n
    let esi := optStringField "style_id" i.style_id
    let est := enumOptField "style" recraftV3Styles i.style
    let esu := substyleOptField "substyle" i.substyle
    let eng := optStringField "negative_prompt" i.negative_prompt
    let issues :=
      fieldIssues em ++ fieldIssues er ++ fieldIssues eim ++ fieldIssues ep ++
      fieldIssues en ++ fieldIssues esi ++ fieldIssues est ++
      fieldIssues esu ++ fieldIssues eng
    if issues.isEmpty then
      .ok
        { model := fieldVal none em
          response_format := fieldVal none er
          image := fieldVal .missing eim
          prompt := fieldVal "" ep
          n := fieldVal none en
          style_id := fieldVal none esi
          style := fieldVal none est
          substyle := fieldVal none esu
          negative_prompt := fieldVal none eng }
    else .error issues

/-- Caller-supplied fields for the four single-file operations
(vectorize_image, remove_background, crisp_upscale, creative_upscale; the
four schemas are textually identical). -/
structure FileOpInput where
  model : SField := .missing
  response_format : SField := .missing
  file : BufField := .missing
  deriving DecidableEq, Repr

/-- Top-level input to a single-file operation schema. -/
inductive FileOpTop where
  | nonObject (kind : String)
  | obj (i : FileOpInput)
  deriving DecidableEq, Repr

/-- Validated output of the four single-file operation schemas. -/
structure FileOpArgs where
  model : Option String := none
  response_format : Option String := none
  file : BufField
  deriving DecidableEq, Repr

/-- Embedding of VectorizeImageArgsSchema.safeParse; RemoveBackground,
CrispUpscale and CreativeUpscale share the same declaration. -/
def fileOpArgsParse (t : FileOpTop) : ZResult FileOpArgs :=
  match t with
  | .nonObject k =>
    .error [⟨[], .invalidType, "Expected object, received " ++ k, ""⟩]
  | .obj i =>
    let em := enumOptField "model" ["recraftv2", "recraftv3"] i.model
    let er := enumOptField "response_format" ["url", "b64_json"] i.response_format
    let ef := bufferOrFileField ["file"] i.file
    let issues := fieldIssues em ++ fieldIssues er ++ fieldIssues ef
    if issues.isEmpty then
      .ok
        { model := fieldVal none em
          response_format := fieldVal none er
          file := fieldVal .missing ef }
    else .error issues

/-- Caller-supplied fields for create_style. -/
structure CreateStyleInput where
  style : SField := .missing
  files : Option (List BufField) := none
  deriving DecidableEq, Repr

/-- Top-level input to the create_style schema. -/
inductive CreateStyleTop where
  | nonObject (kind : String)
  | obj (i : CreateStyleInput)
  deriving DecidableEq, Repr

/-- Validated output of CreateStyleArgsSchema. -/
structure CreateStyleArgs where
  style : String
  files : List BufField
  deriving DecidableEq, Repr

/-- The files field of CreateStyleArgsSchema:
z.array(BufferOrFileSchema).min(1, "At least one file is required"). -/
def createStyleFilesField (v : Option (List BufField)) : ZResult (List BufField) :=
  match v with
  | none => .error [⟨["files"], .invalidType, "Required", ""⟩]
  | some fs =>
    let elems :=
      (fs.enum.map fun p => bufferOrFileField ["files", toString p.1] p.2).foldr
        (fun r acc => (zseq r acc).map fun q => q.1 :: q.2) (.ok [])
    match elems with
    | .error e => .error e
    | .ok l =>
      if l.length < 1 then
        .error [⟨["files"], .tooSmall, "At least one file is required", ""⟩]
      else .ok l

/-- Embedding of CreateStyleArgsSchema.safeParse. Note that the style
field here is a plain nonempty string (the base style name), not the
style enum. -/
def createStyleArgsParse (t : CreateStyleTop) : ZResult CreateStyleArgs :=
  match t with
  | .nonObject k =>
    .error [⟨[], .invalidType, "Expected object, received " ++ k, ""⟩]
  | .obj i =>
    let es := nonemptyStringField "style" "Style name cannot be empty" i.style
    let ef := createStyleFilesField i.files
    let issues := fieldIssues es ++ fieldIssues ef
    if issues.isEmpty then
      .ok { style := fieldVal "" es, files := fieldVal [] ef }
    else .error issues

/-!
Upstream response shapes (src/types/recraft.ts). The data field of the
multi-image response is modelled as optional because the dispatcher code
guards it with optional chaining.
-/

/-- One image entry of an upstream response. -/
structure ImageObj where
  url : String
  b64_json : Option String := none
  deriving DecidableEq, Repr

/-- Multi-image upstream response (RecraftImagesResponse). -/
structure RecraftImagesResponse where
  data : Option (List ImageObj) := none
  deriving DecidableEq, Repr

/-- Single-image upstream response (RecraftImageResponse). -/
structure RecraftImageResponse where
  image : ImageObj
  deriving DecidableEq, Repr

/-- Style-creation upstream response (RecraftStyleResponse). -/
structure RecraftStyleResponse where
  id : String
  deriving DecidableEq, Repr

/-- User-info upstream response (RecraftUserInfoResponse). -/
structure RecraftUserInfoResponse where
  id : String
  name : String
  email : String
  credits : ℚ
  deriving DecidableEq, Repr

/-- JavaScript truthiness of an optional string: absent and the empty
string are falsy. -/
def truthyOptStr : Option String → Bool
  | none => false
  | some s => s != ""

/-- Template-literal interpolation of an optional string: an undefined
value prints as the literal text undefined. -/
def templOpt : Option String → String
  | none => "undefined"
  | some s => s

/-!
RecraftHandlers.handleSaveImageToDisk (src/tools/recraft-handlers.ts).
The method validates with SaveImageToDiskArgsSchema and then destructures
image_url, image_b64, output_path and filename from the validated object.
The schema output carries no output_path or filename (Zod strips unknown
keys), so both destructured values are undefined, and the first statement
of the try block, fs.mkdirSync(output_path, recursive), throws.
-/

/-- Error raised by the handler: MCP invalid-params (validation) or MCP
internal error (anything thrown inside the try block). -/
inductive SaveHandlerErr where
  | invalidParams (msg : String)
  | internalError (msg : String)
  deriving DecidableEq, Repr

/-- Successful save result shape of handleSaveImageToDisk. -/
structure SaveOk where
  success : Bool
  file_path : String
  message : String
  deriving DecidableEq, Repr

/-- Modelled behaviour of Node fs.mkdirSync on the destructured
output_path: the call throws a TypeError when the path argument is
undefined; directory creation itself (an external filesystem effect) is
assumed to succeed for string paths. -/
def mkdirSyncJS : Option String → Except String Unit
  | none => .error
      ("The \"path\" argument must be of type string or an instance of " ++
       "Buffer or URL. Received undefined")
  | some _ => .ok ()

/-- Modelled behaviour of Node path.join on the destructured output_path:
throws a TypeError on an undefined argument, otherwise joins with a
slash. -/
def pathJoinJS : Option String → String → Except String String
  | none, _ => .error
      ("The \"path\" argument must be of type string or an instance of " ++
       "Buffer or URL. Received undefined")
  | some a, b => .ok (if strEndsWith a "/" then a ++ b else a ++ "/" ++ b)

/-- The data-URL prefix match of handleSaveImageToDisk
(a data:image/<ext>;base64, prefix yields the declared extension). -/
def b64ExtMatch (s : String) : Option String :=
  if strStartsWith s "data:image/" then
    let rest := (s.toList.drop 11)
    let ext := rest.takeWhile (·.isAlpha)
    let after := rest.drop ext.length
    if ext.length > 0 && strStartsWith (String.mk after) ";base64," then
      some (String.mk ext)
    else none
  else none

/-- The trailing-extension match of handleSaveImageToDisk on a URL
(an alphanumeric extension after the last dot, an optional query string
after it); modelled on the query-free prefix of the URL. -/
def urlExtMatch (s : String) : Option String :=
  let base := s.toList.takeWhile (fun c => c != '?')
  let revExt := base.reverse.takeWhile (fun c => c != '.')
  match base.reverse.drop revExt.length with
  | '.' :: _ =>
    if revExt.length > 0 && revExt.all (·.isAlphanum) then
      some (String.mk revExt.reverse)
    else none
  | _ => none

/-- Body of the try block of handleSaveImageToDisk, on the four
destructured values: create the destination directory, then take the
base64 branch when image_b64 is truthy, else the URL branch when
image_url is truthy, else throw the either-source message. The URL
branch's download and write (external network and filesystem effects) are
modelled as succeeding; both branches are unreachable in the program
because the directory creation receives undefined and throws first. -/
def saveTryBody (image_url image_b64 output_path filename : Option String) :
    Except String SaveOk := do
  let _ ← mkdirSyncJS output_path
  let fileExtension := "png"
  if truthyOptStr image_b64 then
    let b64 := image_b64.getD ""
    let ext := (b64ExtMatch b64).getD fileExtension
    let p ← pathJoinJS output_path (templOpt filename ++ "." ++ ext)
    pure ⟨true, p, "Image saved successfully to " ++ p⟩
  else if truthyOptStr image_url then
    let url := image_url.getD ""
    let ext := (urlExtMatch url).getD fileExtension
    let p ← pathJoinJS output_path (templOpt filename ++ "." ++ ext)
    pure ⟨true, p, "Image saved successfully to " ++ p⟩
  else
    throw "Either image_url or image_b64 must be provided"

/-- Embedding of RecraftHandlers.handleSaveImageToDisk: validate (the
validateSchemaAs failure is rethrown as an MCP invalid-params error with
the Validation error prefix), destructure the validated object (yielding
undefined for output_path and filename), run the try block, and wrap
anything it throws as an MCP internal error with the Error saving image
prefix. -/
def handleSaveImageToDisk (t : SaveTop) : Except SaveHandlerErr SaveOk :=
  match saveImageToDiskArgsParse t with
  | .error issues =>
    .error (.invalidParams ("Validation error: " ++ formatZodError issues))
  | .ok v =>
    let output_path : Option String := none
    let filename : Option String := none
    match saveTryBody v.image_url v.image_b64 output_path filename with
    | .ok r => .ok r
    | .error m => .error (.internalError ("Error saving image: " ++ m))

/-!
Validate-then-call pipelines. ToolHandlers (src/tools/handlers.ts)
validates the raw arguments, then delegates to RecraftHandlers
(src/tools/recraft-handlers.ts), which validates again and only then
invokes the RecraftApi method. Each pipeline records the upstream HTTP
calls it performs, so that the ordering claim (validation failure means no
upstream call) can be stated; the upstream response is supplied as a
function argument since the network is external.
-/

/-- One upstream HTTP call performed by RecraftApi, carrying the validated
arguments it was given. -/
inductive UpstreamCall where
  | generations (a : GenArgs)
  | imageToImage (a : I2IArgs)
  | inpaint (a : InpaintArgs)
  | replaceBackground (a : ReplaceBgArgs)
  | vectorize (a : FileOpArgs)
  | removeBackground (a : FileOpArgs)
  | crispUpscale (a : FileOpArgs)
  | creativeUpscale (a : FileOpArgs)
  | styles (a : CreateStyleArgs)
  | usersMe
  deriving DecidableEq, Repr

/-- Outcome of a pipeline: the upstream calls performed (in order) and the
final result or error message. -/
structure PipeResult (ρ : Type) where
  calls : List UpstreamCall
  result : Except String ρ

/-- Pipeline of ToolHandlers.handleGenerateImage: validate with the
Invalid image generation parameters prefix, then delegate to
RecraftHandlers.handleGenerateImage, which validates again (Validation
error prefix, unreachable since the first validation already succeeded)
and calls RecraftApi.generateImage on the validated arguments. -/
def handleGenerateImagePipeline (up : GenArgs → RecraftImagesResponse)
    (t : GenTop) : PipeResult RecraftImagesResponse :=
  match generateImageArgsParse t with
  | .error issues =>
    ⟨[], .error ("Invalid image generation parameters: " ++ formatZodError issues)⟩
  | .ok _ =>
    match generateImageArgsParse t with
    | .error issues =>
      ⟨[], .error ("Validation error: " ++ formatZodError issues)⟩
    | .ok v => ⟨[.generations v], .ok (up v)⟩

/-- Pipeline of ToolHandlers.handleImageToImage (its catch block prepends
the Failed to transform image prefix to the validation failure). -/
def handleImageToImagePipeline (up : I2IArgs → RecraftImagesResponse)
    (t : I2ITop) : PipeResult RecraftImagesResponse :=
  match imageToImageArgsParse t with
  | .error issues =>
    ⟨[], .error ("Failed to transform image: Invalid image-to-image parameters: "
      ++ formatZodError issues)⟩
  | .ok _ =>
    match imageToImageArgsParse t with
    | .error issues =>
      ⟨[], .error ("Validation error: " ++ formatZodError issues)⟩
    | .ok v => ⟨[.imageToImage v], .ok (up v)⟩

/-- Pipeline of ToolHandlers.handleInpaintImage. -/
def handleInpaintImagePipeline (up : InpaintArgs → RecraftImagesResponse)
    (t : InpaintTop) : PipeResult RecraftImagesResponse :=
  match inpaintImageArgsParse t with
  | .error issues =>
    ⟨[], .error ("Failed to inpaint image: Invalid inpainting parameters: "
      ++ formatZodError issues)⟩
  | .ok _ =>
    match inpaintImageArgsParse t with
    | .error issues =>
      ⟨[], .error ("Validation error: " ++ formatZodError issues)⟩
    | .ok v => ⟨[.inpaint v], .ok (up v)⟩

/-- Pipeline of ToolHandlers.handleReplaceBackground. -/
def handleReplaceBackgroundPipeline (up : ReplaceBgArgs → RecraftImagesResponse)
    (t : ReplaceBgTop) : PipeResult RecraftImagesResponse :=
  match replaceBackgroundArgsParse t with
  | .error issues =>
    ⟨[], .error
      ("Failed to replace background: Invalid background replacement parameters: "
        ++ formatZodError issues)⟩
  | .ok _ =>
    match replaceBackgroundArgsParse t with
    | .error issues =>
      ⟨[], .error ("Validation error: " ++ formatZodError issues)⟩
    | .ok v => ⟨[.replaceBackground v], .ok (up v)⟩

/-- Pipeline of ToolHandlers.handleVectorizeImage. -/
def handleVectorizeImagePipeline (up : FileOpArgs → RecraftImageResponse)
    (t : FileOpTop) : PipeResult RecraftImageResponse :=
  match fileOpArgsParse t with
  | .error issues =>
    ⟨[], .error ("Failed to vectorize image: Invalid vectorization parameters: "
      ++ formatZodError issues)⟩
  | .ok _ =>
    match fileOpArgsParse t with
    | .error issues =>
      ⟨[], .error ("Validation error: " ++ formatZodError issues)⟩
    | .ok v => ⟨[.vectorize v], .ok (up v)⟩

/-- Pipeline of ToolHandlers.handleRemoveBackground. -/
def handleRemoveBackgroundPipeline (up : FileOpArgs → RecraftImageResponse)
    (t : FileOpTop) : PipeResult RecraftImageResponse :=
  match fileOpArgsParse t with
  | .error issues =>
    ⟨[], .error
      ("Failed to remove background: Invalid background removal parameters: "
        ++ formatZodError issues)⟩
  | .ok _ =>
    match fileOpArgsParse t with
    | .error issues =>
      ⟨[], .error ("Validation error: " ++ formatZodError issues)⟩
    | .ok v => ⟨[.removeBackground v], .ok (up v)⟩

/-- Pipeline of ToolHandlers.handleCrispUpscale. -/
def handleCrispUpscalePipeline (up : FileOpArgs → RecraftImageResponse)
    (t : FileOpTop) : PipeResult RecraftImageResponse :=
  match fileOpArgsParse t with
  | .error issues =>
    ⟨[], .error ("Failed to upscale image: Invalid crisp upscale parameters: "
      ++ formatZodError issues)⟩
  | .ok _ =>
    match fileOpArgsParse t with
    | .error issues =>
      ⟨[], .error ("Validation error: " ++ formatZodError issues)⟩
    | .ok v => ⟨[.crispUpscale v], .ok (up v)⟩

/-- Pipeline of ToolHandlers.handleCreativeUpscale. -/
def handleCreativeUpscalePipeline (up : FileOpArgs → RecraftImageResponse)
    (t : FileOpTop) : PipeResult RecraftImageResponse :=
  match fileOpArgsParse t with
  | .error issues =>
    ⟨[], .error ("Failed to upscale image: Invalid creative upscale parameters: "
      ++ formatZodError issues)⟩
  | .ok _ =>
    match fileOpArgsParse t with
    | .error issues =>
      ⟨[], .error ("Validation error: " ++ formatZodError issues)⟩
    | .ok v => ⟨[.creativeUpscale v], .ok (up v)⟩

/-- Pipeline of ToolHandlers.handleCreateStyle. -/
def handleCreateStylePipeline (up : CreateStyleArgs → RecraftStyleResponse)
    (t : CreateStyleTop) : PipeResult RecraftStyleResponse :=
  match createStyleArgsParse t with
  | .error issues =>
    ⟨[], .error ("Failed to create style: Invalid style creation parameters: "
      ++ formatZodError issues)⟩
  | .ok _ =>
    match createStyleArgsParse t with
    | .error issues =>
      ⟨[], .error ("Validation error: " ++ formatZodError issues)⟩
    | .ok v => ⟨[.styles v], .ok (up v)⟩

/-- Pipeline of ToolHandlers.handleSaveImageToDisk: this operation talks
only to the filesystem, never to the upstream client, so its call trace is
always empty; an MCP error raised by RecraftHandlers propagates through
the ToolHandlers catch block unchanged. -/
def handleSaveImageToDiskPipeline (t : SaveTop) : PipeResult SaveOk :=
  match saveImageToDiskArgsParse t with
  | .error issues =>
    ⟨[], .error ("Failed to save image: Invalid save image parameters: "
      ++ formatZodError issues)⟩
  | .ok _ =>
    ⟨[],
      match handleSaveImageToDisk t with
      | .ok r => .ok r
      | .error (.invalidParams m) => .error m
      | .error (.internalError m) => .error m⟩

/-!
FastMCP tool dispatch (src/server.ts): the per-tool execute functions that
shape an upstream response into protocol content segments.
-/

/-- One protocol content segment: a text segment, or an inline-image
segment. The inline-image segment is modelled as carrying its base64
payload (the execute functions decode it to bytes and the transport
re-encodes; the payload determines the bytes). -/
inductive Content where
  | text (s : String)
  | image (b64 : String)
  deriving DecidableEq, Repr

/-- Failure mode of an execute function: a deliberately thrown UserError,
or a JavaScript TypeError from dereferencing an undefined value. -/
inductive JsFailure where
  | userError (msg : String)
  | typeError (msg : String)
  deriving DecidableEq, Repr

/-- The optional-chained first base64 payload,
response.data elvis-indexed at 0 elvis b64_json. -/
def firstB64 (r : RecraftImagesResponse) : Option String :=
  match r.data with
  | none => none
  | some l =>
    match l.head? with
    | none => none
    | some e => e.b64_json

/-- Embedding of the generate_image execute function (src/server.ts):
guard the first image entry with an explicit no-image-data UserError; the
disk-save branch tests args.save_to_disk, args.output_path and
args.filename, but the Zod-validated generate arguments carry no
output_path or filename, so the guard is always falsy and no save is
attempted; a truthy save_to_disk still switches the success message to the
saved-to text, interpolating the two undefined fields. -/
def generateImageExecute (a : GenArgs) (r : RecraftImagesResponse) :
    Except JsFailure (List Content) :=
  match r.data with
  | none => .error (.userError "Failed to generate image: No image data received")
  | some l =>
    match l.head? with
    | none =>
      .error (.userError "Failed to generate image: No image data received")
    | some imageData =>
      let successMessage :=
        if a.save_to_disk == some true then
          "Image generated and saved to: " ++ templOpt none ++ "/" ++
            templOpt none
        else "Image generated successfully"
      if truthyOptStr imageData.b64_json then
        .ok [.text successMessage, .image (imageData.b64_json.getD "")]
      else
        .ok [.text (successMessage ++ "\nImage URL: " ++ imageData.url)]

/-- Embedding of the image_to_image execute function: when the optional
chain finds no truthy first base64 payload, the code dereferences
response.data index 0 without a guard, which throws a TypeError when the
data array is missing or empty. -/
def imageToImageExecute (r : RecraftImagesResponse) :
    Except JsFailure (List Content) :=
  if truthyOptStr (firstB64 r) then .ok [.image ((firstB64 r).getD "")]
  else
    match r.data with
    | none =>
      .error (.typeError "Cannot read properties of undefined (reading \"0\")")
    | some l =>
      match l.head? with
      | none =>
        .error (.typeError "Cannot read properties of undefined (reading \"url\")")
      | some e => .ok [.text e.url]

/-- Embedding of the inpaint_image execute function (same shape as
image_to_image). -/
def inpaintImageExecute (r : RecraftImagesResponse) :
    Except JsFailure (List Content) :=
  if truthyOptStr (firstB64 r) then .ok [.image ((firstB64 r).getD "")]
  else
    match r.data with
    | none =>
      .error (.typeError "Cannot read properties of undefined (reading \"0\")")
    | some l =>
      match l.head? with
      | none =>
        .error (.typeError "Cannot read properties of undefined (reading \"url\")")
      | some e => .ok [.text e.url]

/-- Embedding of the replace_background execute function (same shape as
image_to_image). -/
def replaceBackgroundExecute (r : RecraftImagesResponse) :
    Except JsFailure (List Content) :=
  if truthyOptStr (firstB64 r) then .ok [.image ((firstB64 r).getD "")]
  else
    match r.data with
    | none =>
      .error (.typeError "Cannot read properties of undefined (reading \"0\")")
    | some l =>
      match l.head? with
      | none =>
        .error (.typeError "Cannot read properties of undefined (reading \"url\")")
      | some e => .ok [.text e.url]

/-- Embedding of the vectorize_image execute function: unconditionally a
text segment with the image URL, with no base64 branch. -/
def vectorizeImageExecute (r : RecraftImageResponse) : List Content :=
  [.text r.image.url]

/-- Embedding of the remove_background execute function: an inline-image
segment when the base64 payload is truthy, else a text segment with the
URL. -/
def removeBackgroundExecute (r : RecraftImageResponse) : List Content :=
  if truthyOptStr r.image.b64_json then [.image (r.image.b64_json.getD "")]
  else [.text r.image.url]

/-- Embedding of the crisp_upscale execute function (same rule as
remove_background). -/
def crispUpscaleExecute (r : RecraftImageResponse) : List Content :=
  if truthyOptStr r.image.b64_json then [.image (r.image.b64_json.getD "")]
  else [.text r.image.url]

/-- Embedding of the creative_upscale execute function (same rule as
remove_background). -/
def creativeUpscaleExecute (r : RecraftImageResponse) : List Content :=
  if truthyOptStr r.image.b64_json then [.image (r.image.b64_json.getD "")]
  else [.text r.image.url]

/-- Embedding of the create_style execute function. -/
def createStyleExecute (r : RecraftStyleResponse) : List Content :=
  [.text ("Style created with ID: " ++ r.id)]

/-!
Dynamic JavaScript values, needed for the get_user_info chain (whose
behaviour depends on reading properties that the static types say do not
exist) and for the JSON request body of generate_image.
-/

/-- Model of a JavaScript value as it flows between the handler layers. -/
inductive JSVal where
  | undefV
  | nullV
  | boolV (b : Bool)
  | numV (q : ℚ)
  | strV (s : String)
  | arrV (xs : List JSVal)
  | objV (fields : List (String × JSVal))

/-- Property access: objects yield the field value or undefined; any other
value yields undefined (the chain below only reads own properties of
plain objects). -/
def JSVal.getProp : JSVal → String → JSVal
  | .objV fs, k => (fs.lookup k).getD .undefV
  | _, _ => .undefV

/-- Template-literal interpolation of a value; an undefined value prints
as the literal text undefined. The array case is not exercised by the
embedded code. -/
def templVal : JSVal → String
  | .undefV => "undefined"
  | .nullV => "null"
  | .boolV b => if b then "true" else "false"
  | .numV q => if q.den == 1 then toString q.num else toString q
  | .strV s => s
  | .arrV _ => ""
  | .objV _ => "[object Object]"

/-- JSON.stringify of the parsed user-info response with two-space
indentation, as produced in RecraftHandlers.handleGetUserInfo; the field
order follows the response shape. -/
def jsonStringifyUserInfo (u : RecraftUserInfoResponse) : String :=
  "\x7b\n  \"id\": \"" ++ u.id ++ "\",\n  \"name\": \"" ++ u.name ++
  "\",\n  \"email\": \"" ++ u.email ++ "\",\n  \"credits\": " ++
  templVal (.numV u.credits) ++ "\n\x7d"

/-- Embedding of RecraftHandlers.handleGetUserInfo: wraps the upstream
user-info response in a content envelope whose single text segment is the
JSON-stringified response. -/
def recraftHandlersGetUserInfo (u : RecraftUserInfoResponse) : JSVal :=
  .objV [("content", .arrV [.objV
    [("type", .strV "text"), ("text", .strV (jsonStringifyUserInfo u))]])]

/-- Embedding of ToolHandlers.handleGetUserInfo: a pure delegation to
RecraftHandlers.handleGetUserInfo. -/
def toolHandlersGetUserInfo (u : RecraftUserInfoResponse) : JSVal :=
  recraftHandlersGetUserInfo u

/-- The text segment produced by the get_user_info execute function in
src/server.ts: it interpolates response.name, response.email and
response.credits, where response is the value returned by
ToolHandlers.handleGetUserInfo. -/
def serverGetUserInfoText (u : RecraftUserInfoResponse) : String :=
  let response := toolHandlersGetUserInfo u
  "User: " ++ templVal (response.getProp "name") ++ " (" ++
    templVal (response.getProp "email") ++ ")\nCredits: " ++
    templVal (response.getProp "credits")

/-- Full result of the get_user_info execute function: one text content
segment. -/
def getUserInfoExecute (u : RecraftUserInfoResponse) : List Content :=
  [.text (serverGetUserInfoText u)]

/-!
RecraftApi.generateImage (src/services/recraft/index.ts) sends
JSON.stringify(args) of the validated arguments as the request body.
-/

/-- One JSON object entry for a present optional field; absent fields are
omitted by JSON.stringify. -/
def optEntry (k : String) : Option JSVal → List (String × JSVal)
  | none => []
  | some v => [(k, v)]

/-- JSON image of a JS number: JSON.stringify renders NaN as null. -/
def jnumJson : JNum → JSVal
  | .nan => .nullV
  | .fin q => .numV q

/-- JSON image of a validated color. -/
def colorJson (c : ℚ × ℚ × ℚ) : JSVal :=
  .objV [("rgb", .arrV [.numV c.1, .numV c.2.1, .numV c.2.2])]

/-- JSON image of a validated controls bundle. -/
def controlsJson (c : Controls) : JSVal :=
  .objV
    (optEntry "artistic_level" (c.artistic_level.map .numV) ++
     optEntry "colors" (c.colors.map fun l => .arrV (l.map colorJson)) ++
     optEntry "background_color" (c.background_color.map colorJson) ++
     optEntry "no_text" (c.no_text.map .boolV))

/-- JSON image of a text-layout element list. -/
def textLayoutJson (l : List TextLayoutElement) : JSVal :=
  .arrV (l.map fun e =>
    .objV [("text", .strV e.text),
      ("bbox", .arrV
        [.arrV [.numV e.bbox.1.1, .numV e.bbox.1.2],
         .arrV [.numV e.bbox.2.1.1, .numV e.bbox.2.1.2],
         .arrV [.numV e.bbox.2.2.1.1, .numV e.bbox.2.2.1.2],
         .arrV [.numV e.bbox.2.2.2.1, .numV e.bbox.2.2.2.2]])])

/-- The JSON body sent by RecraftApi.generateImage:
JSON.stringify(args) over the whole validated argument object, fields in
shape order, absent optionals omitted. The local-only disk-save fields are
part of the validated object and are therefore serialized too. -/
def generateImageRequestBody (a : GenArgs) : List (String × JSVal) :=
  optEntry "model" (a.model.map .strV) ++
  optEntry "response_format" (a.response_format.map .strV) ++
  [("prompt", .strV a.prompt)] ++
  optEntry "n" (a.n.map jnumJson) ++
  optEntry "style_id" (a.style_id.map .strV) ++
  optEntry "style" (a.style.map .strV) ++
  optEntry "substyle" (a.substyle.map .strV) ++
  optEntry "size" (a.size.map .strV) ++
  optEntry "negative_prompt" (a.negative_prompt.map .strV) ++
  optEntry "controls" (a.controls.map controlsJson) ++
  optEntry "text_layout" (a.text_layout.map textLayoutJson) ++
  optEntry "save_to_disk" (a.save_to_disk.map .boolV) ++
  optEntry "file_path" (a.file_path.map .strV)

/-- Boolean success test of a validation result. -/
def zOk {α : Type} : ZResult α → Bool
  | .ok _ => true
  | .error _ => false

/-- Modelled from the spec: the claimed rendering of a violation that does
not hit the style special case, the field path, a colon separator, and the
message. Defined for comparison against renderIssue. -/
def claimedViolationRender (i : ZIssue) : String :=
  pathJoin i.path ++ ": " ++ i.message

/-!
Theorems settling the claims.
-/

/-- C1: save_image_to_disk validation does not accept the documented
shape. The args object with output_path, filename and an image_url, which
the advertised tool schema, the SaveImageToDiskArgs interface and the
handler all treat as the valid shape, is rejected by
SaveImageToDiskArgsSchema with file_path: Required, because the schema
requires file_path and ignores output_path and filename. With a file_path
supplied, absence of both image sources still fails with the
either-source refinement, as the claim states. -/
theorem C1_save_schema_rejects_documented_shape :
    saveImageToDiskArgsParse (.obj
      { output_path := .str "/tmp/x", filename := .str "img",
        image_url := .str "https://images.example.com/a.png" }) =
      .error [⟨["file_path"], .invalidType, "Required", ""⟩] ∧
    saveImageToDiskArgsParse (.obj { file_path := .str "/tmp/x" }) =
      .error [⟨["image_source"], .custom,
        "Either image_url or image_b64 must be provided", ""⟩] := by
  decide

/-- C2 counterexample: a save_image_to_disk call with both image_url and
image_b64 present (and a valid file_path, so validation passes) does not
report a URL-based save result; the handler fails with an internal Error
saving image error, because the validated object carries no output_path
and the directory-creation call receives undefined. -/
theorem C2_counterexample_both_sources_no_url_save :
    handleSaveImageToDisk (.obj
      { image_url := .str "https://images.example.com/a.png",
        image_b64 := .str "QUJD", file_path := .str "/tmp/x" }) =
      .error (.internalError
        ("Error saving image: The \"path\" argument must be of type string " ++
         "or an instance of Buffer or URL. Received undefined")) := by
  decide

/-- C2 (amended): every save_image_to_disk call that passes validation
fails with the internal Error saving image error before either save branch
runs; in particular no URL-based save result is ever reported, even when
both image sources are present. -/
theorem C2_save_always_fails_before_either_branch
    (t : SaveTop) (v : SaveArgs) (h : saveImageToDiskArgsParse t = .ok v) :
    handleSaveImageToDisk t =
      .error (.internalError
        ("Error saving image: The \"path\" argument must be of type string " ++
         "or an instance of Buffer or URL. Received undefined")) := by
  unfold handleSaveImageToDisk
  rw [h]
  rfl

/-- C2 witness: the amended theorem applied at a concrete call with both
image sources present. -/
theorem C2_save_always_fails_before_either_branch_witness :
    handleSaveImageToDisk (.obj
      { image_url := .str "https://images.example.com/b.png",
        image_b64 := .str "QUJDRA==", file_path := .str "/tmp/y" }) =
      .error (.internalError
        ("Error saving image: The \"path\" argument must be of type string " ++
         "or an instance of Buffer or URL. Received undefined")) :=
  C2_save_always_fails_before_either_branch _
    ⟨some "https://images.example.com/b.png", some "QUJDRA==", "/tmp/y"⟩
    (by decide)

/-- C3 counterexample: output_path and filename do not become required
when save_to_disk is true. An args object with save_to_disk true and a
file_path, but with neither output_path nor filename, passes
GenerateImageArgsSchema validation. -/
theorem C3_counterexample_save_companions_not_required :
    generateImageArgsParse (.obj
      { prompt := .str "cat", save_to_disk := .bool true,
        file_path := .str "/tmp/x.png" }) =
      .ok { prompt := "cat", save_to_disk := some true,
            file_path := some "/tmp/x.png" } := by
  decide

/-- C3 (amended): when save_to_disk is true the companion field that
becomes required is file_path: the spec example without it fails
validation with a single issue whose path is save_to_disk (not the path
field), and supplying any nonempty absolute file_path satisfies the
requirement without output_path or filename. -/
theorem C3_save_to_disk_requires_file_path :
    (generateImageArgsParse (.obj { prompt := .str "cat", save_to_disk := .bool true }) =
      .error [⟨["save_to_disk"], .custom,
        "file_path is required when save_to_disk is true", ""⟩]) ∧
    ∀ (f : SField) (p : String), genFilePathOptField f = .ok (some p) →
      generateImageArgsParse (.obj
        { prompt := .str "cat", save_to_disk := .bool true, file_path := f }) =
        .ok { prompt := "cat", save_to_disk := some true, file_path := some p } := by
  refine ⟨by decide, ?_⟩
  intro f p h
  have hp : nonemptyStringField "prompt" "Prompt cannot be empty" (.str "cat") =
      .ok "cat" := by decide
  simp only [generateImageArgsParse, h, hp]
  simp [fieldIssues, fieldVal, enumOptField, optNField,
    optStringField, substyleOptField, controlsOptField, optBoolField]

/-- C3 witness: the amended theorem applied at the spec example and at a
concrete absolute path. -/
theorem C3_save_to_disk_requires_file_path_witness :
    generateImageArgsParse (.obj
      { prompt := .str "cat", save_to_disk := .bool true,
        file_path := .str "/out/img.png" }) =
      .ok { prompt := "cat", save_to_disk := some true,
            file_path := some "/out/img.png" } :=
  C3_save_to_disk_requires_file_path.2 (.str "/out/img.png") "/out/img.png" (by decide)

/-- C4 counterexample: a non-numeric string does not fail validation, and
range checks are not applied to the string form: the strength union
accepts the string abc (normalizing it to NaN) and the n union accepts
the out-of-range string 9. -/
theorem C4_counterexample_string_branch_unchecked :
    strengthFieldParse (.str "abc") = .ok .nan ∧
    nFieldParse "n" (.str "9") = .ok (.fin 9) := by
  decide

/-- C4 (amended): for the numeric-or-string fields, the number form is
range-checked (n an integer in 1..6, strength in 0..1) and an in-range
numeric string yields the same normalized number as the number form
(the string 3 yields 3, the string 0.5 yields 0.5); but the string branch
of each union applies parseInt or parseFloat with no numeric or range
check, so every string is accepted with its bare parse result. -/
theorem C4_numeric_or_string_normalization :
    nFieldParse "n" (.str "3") = .ok (.fin 3) ∧
    nFieldParse "n" (.num (.fin 3)) = .ok (.fin 3) ∧
    strengthFieldParse (.str "0.5") = .ok (.fin (1 / 2)) ∧
    strengthFieldParse (.num (.fin (1 / 2))) = .ok (.fin (1 / 2)) ∧
    (∀ s : String, nFieldParse "n" (.str s) = .ok (parseIntJS s)) ∧
    (∀ s : String, strengthFieldParse (.str s) = .ok (parseFloatJS s)) ∧
    (∀ q : ℚ, zOk (nFieldParse "n" (.num (.fin q))) =
      (q.den == 1 && decide (1 ≤ q) && decide (q ≤ 6))) ∧
    (∀ q : ℚ, zOk (strengthFieldParse (.num (.fin q))) =
      (decide (0 ≤ q) && decide (q ≤ 1))) := by
  have key : parseFloatJS "0.5" =
      .fin (((0 : ℕ) : ℚ) + ((5 : ℕ) : ℚ) / (10 : ℚ) ^ (1 : ℕ)) := rfl
  have harith : (((0 : ℕ) : ℚ) + ((5 : ℕ) : ℚ) / (10 : ℚ) ^ (1 : ℕ)) =
      (1 : ℚ) / 2 := by norm_num
  refine ⟨by decide, by decide, ?_, ?_,
    fun s => rfl, fun s => rfl, fun q => ?_, fun q => ?_⟩
  · show Except.ok (parseFloatJS "0.5") = _
    rw [key, harith]
  · norm_num [strengthFieldParse]
  · unfold nFieldParse
    by_cases h : (q.den == 1 && decide (1 ≤ q) && decide (q ≤ 6)) = true
    · simp [h, zOk]
    · simp only [Bool.not_eq_true] at h
      simp [h, zOk]
  · unfold strengthFieldParse
    by_cases h : (decide (0 ≤ q) && decide (q ≤ 1)) = true
    · simp [h, zOk]
    · simp only [Bool.not_eq_true] at h
      simp [h, zOk]

/-- C5 counterexample: a violation with an empty field path (here produced
by validating a non-object value) is rendered as the bare message, not in
the claimed path-colon-message form. -/
theorem C5_counterexample_empty_path_rendering :
    saveImageToDiskArgsParse (.nonObject "null") =
      .error [⟨[], .invalidType, "Expected object, received null", ""⟩] ∧
    formatZodError [⟨[], .invalidType, "Expected object, received null", ""⟩] =
      "Expected object, received null" ∧
    formatZodError [⟨[], .invalidType, "Expected object, received null", ""⟩] ≠
      claimedViolationRender ⟨[], .invalidType, "Expected object, received null", ""⟩ := by
  exact ⟨by decide, by decide, by decide⟩

/-- C5 (amended): every enum-membership violation whose dot-joined path
contains style renders in the exact special form, listing every valid
style token comma-separated in declaration order; every other violation
with a nonempty joined path renders as path-colon-message; a violation
with an empty joined path renders as the bare message; and the combined
message joins the rendered violations with semicolons. -/
theorem C5_error_message_rendering :
    (∀ i : ZIssue, i.code = .invalidEnumValue →
      strContains (pathJoin i.path) "style" = true →
      renderIssue i = "Invalid style: \"" ++ i.received ++
        "\". Valid options are: " ++ String.intercalate ", " recraftV3Styles) ∧
    (String.intercalate ", " recraftV3Styles =
      "any, realistic_image, digital_illustration, vector_illustration, icon, logo_raster") ∧
    (∀ i : ZIssue, (i.code ≠ .invalidEnumValue ∨
        strContains (pathJoin i.path) "style" = false) →
      pathJoin i.path ≠ "" → renderIssue i = claimedViolationRender i) ∧
    (∀ i : ZIssue, pathJoin i.path = "" → renderIssue i = i.message) ∧
    (∀ issues : List ZIssue,
      formatZodError issues = String.intercalate "; " (issues.map renderIssue)) := by
  refine ⟨?_, by decide, ?_, ?_, fun issues => rfl⟩
  · intro i h1 h2
    have hc : (strContains (pathJoin i.path) "style" &&
        (i.code == ZCode.invalidEnumValue)) = true := by
      rw [h2, h1]; rfl
    simp [renderIssue, hc]
  · intro i h hne
    have hc : (strContains (pathJoin i.path) "style" &&
        (i.code == ZCode.invalidEnumValue)) = false := by
      rcases h with h | h
      · simp [h]
      · simp [h]
    simp [renderIssue, claimedViolationRender, hc, hne]
  · intro i h
    have hc : strContains "" "style" = false := by decide
    simp [renderIssue, h, hc]

/-- C5 witness: the amended theorem applied at one style-enum violation,
one field violation, and one empty-path violation. -/
theorem C5_error_message_rendering_witness :
    renderIssue ⟨["style"], .invalidEnumValue, "Invalid enum value", "realistic"⟩ =
      "Invalid style: \"" ++ "realistic" ++ "\". Valid options are: " ++
        String.intercalate ", " recraftV3Styles ∧
    renderIssue ⟨["prompt"], .invalidType, "Required", ""⟩ =
      claimedViolationRender ⟨["prompt"], .invalidType, "Required", ""⟩ ∧
    renderIssue ⟨[], .invalidType, "Expected object, received null", ""⟩ =
      "Expected object, received null" :=
  ⟨C5_error_message_rendering.1 _ rfl (by decide),
   C5_error_message_rendering.2.2.1 _ (Or.inl (by decide)) (by decide),
   C5_error_message_rendering.2.2.2.1 _ (by decide)⟩

/-- C6: for every operation with arguments, a schema validation failure
makes the pipeline return the validation error, carrying the full
aggregated formatZodError message, with an empty upstream call trace: an
invalid input never reaches the upstream client. -/
theorem C6_validation_error_precedes_upstream_call :
    (∀ (up : GenArgs → RecraftImagesResponse) (t : GenTop) (issues : List ZIssue),
      generateImageArgsParse t = .error issues →
      handleGenerateImagePipeline up t =
        ⟨[], .error ("Invalid image generation parameters: " ++
          formatZodError issues)⟩) ∧
    (∀ (up : I2IArgs → RecraftImagesResponse) (t : I2ITop) (issues : List ZIssue),
      imageToImageArgsParse t = .error issues →
      handleImageToImagePipeline up t =
        ⟨[], .error ("Failed to transform image: Invalid image-to-image parameters: "
          ++ formatZodError issues)⟩) ∧
    (∀ (up : InpaintArgs → RecraftImagesResponse) (t : InpaintTop)
        (issues : List ZIssue),
      inpaintImageArgsParse t = .error issues →
      handleInpaintImagePipeline up t =
        ⟨[], .error ("Failed to inpaint image: Invalid inpainting parameters: "
          ++ formatZodError issues)⟩) ∧
    (∀ (up : ReplaceBgArgs → RecraftImagesResponse) (t : ReplaceBgTop)
        (issues : List ZIssue),
      replaceBackgroundArgsParse t = .error issues →
      handleReplaceBackgroundPipeline up t =
        ⟨[], .error
          ("Failed to replace background: Invalid background replacement parameters: "
            ++ formatZodError issues)⟩) ∧
    (∀ (up : FileOpArgs → RecraftImageResponse) (t : FileOpTop)
        (issues : List ZIssue),
      fileOpArgsParse t = .error issues →
      handleVectorizeImagePipeline up t =
        ⟨[], .error ("Failed to vectorize image: Invalid vectorization parameters: "
          ++ formatZodError issues)⟩ ∧
      handleRemoveBackgroundPipeline up t =
        ⟨[], .error
          ("Failed to remove background: Invalid background removal parameters: "
            ++ formatZodError issues)⟩ ∧
      handleCrispUpscalePipeline up t =
        ⟨[], .error ("Failed to upscale image: Invalid crisp upscale parameters: "
          ++ formatZodError issues)⟩ ∧
      handleCreativeUpscalePipeline up t =
        ⟨[], .error ("Failed to upscale image: Invalid creative upscale parameters: "
          ++ formatZodError issues)⟩) ∧
    (∀ (up : CreateStyleArgs → RecraftStyleResponse) (t : CreateStyleTop)
        (issues : List ZIssue),
      createStyleArgsParse t = .error issues →
      handleCreateStylePipeline up t =
        ⟨[], .error ("Failed to create style: Invalid style creation parameters: "
          ++ formatZodError issues)⟩) ∧
    (∀ (t : SaveTop) (issues : List ZIssue),
      saveImageToDiskArgsParse t = .error issues →
      handleSaveImageToDiskPipeline t =
        ⟨[], .error ("Failed to save image: Invalid save image parameters: "
          ++ formatZodError issues)⟩) := by
  refine ⟨?_, ?_, ?_, ?_, ?_, ?_, ?_⟩
  · intro up t issues h
    unfold handleGenerateImagePipeline
    rw [h]
  · intro up t issues h
    unfold handleImageToImagePipeline
    rw [h]
  · intro up t issues h
    unfold handleInpaintImagePipeline
    rw [h]
  · intro up t issues h
    unfold handleReplaceBackgroundPipeline
    rw [h]
  · intro up t issues h
    refine ⟨?_, ?_, ?_, ?_⟩
    · unfold handleVectorizeImagePipeline
      rw [h]
    · unfold handleRemoveBackgroundPipeline
      rw [h]
    · unfold handleCrispUpscalePipeline
      rw [h]
    · unfold handleCreativeUpscalePipeline
      rw [h]
  · intro up t issues h
    unfold handleCreateStylePipeline
    rw [h]
  · intro t issues h
    unfold handleSaveImageToDiskPipeline
    rw [h]

/-- C6 witness: the generate-image component applied at a concrete invalid
input (missing prompt) and a stub upstream. -/
theorem C6_validation_error_precedes_upstream_call_witness :
    handleGenerateImagePipeline (fun _ => ⟨none⟩) (.obj {}) =
      ⟨[], .error ("Invalid image generation parameters: " ++
        formatZodError [⟨["prompt"], .invalidType, "Required", ""⟩])⟩ :=
  C6_validation_error_precedes_upstream_call.1 (fun _ => ⟨none⟩) (.obj {})
    [⟨["prompt"], .invalidType, "Required", ""⟩] (by decide)

/-- C7 counterexample: the vectorize_image execute emits the URL text
segment even when the response carries an inline base64 payload, contrary
to the claimed base64-first rule. -/
theorem C7_counterexample_vectorize_url_despite_b64 :
    vectorizeImageExecute ⟨⟨"https://x/y.svg", some "QUJD"⟩⟩ =
      [.text "https://x/y.svg"] ∧
    vectorizeImageExecute ⟨⟨"https://x/y.svg", some "QUJD"⟩⟩ ≠ [.image "QUJD"] := by
  exact ⟨rfl, by decide⟩

/-- C7 (amended): remove_background, crisp_upscale and creative_upscale
follow the documented rule (inline image for a truthy base64 payload,
otherwise the URL text), while vectorize_image unconditionally emits the
URL text segment. -/
theorem C7_single_image_response_shaping :
    (∀ (r : RecraftImageResponse) (b : String),
      r.image.b64_json = some b → b ≠ "" →
      removeBackgroundExecute r = [.image b] ∧
      crispUpscaleExecute r = [.image b] ∧
      creativeUpscaleExecute r = [.image b]) ∧
    (∀ r : RecraftImageResponse, truthyOptStr r.image.b64_json = false →
      removeBackgroundExecute r = [.text r.image.url] ∧
      crispUpscaleExecute r = [.text r.image.url] ∧
      creativeUpscaleExecute r = [.text r.image.url]) ∧
    (∀ r : RecraftImageResponse, vectorizeImageExecute r = [.text r.image.url]) := by
  refine ⟨?_, ?_, fun r => rfl⟩
  · intro r b h hb
    have ht : truthyOptStr (some b) = true := by
      simp [truthyOptStr, hb]
    exact ⟨by simp [removeBackgroundExecute, h, ht],
      by simp [crispUpscaleExecute, h, ht],
      by simp [creativeUpscaleExecute, h, ht]⟩
  · intro r h
    exact ⟨by simp [removeBackgroundExecute, h],
      by simp [crispUpscaleExecute, h],
      by simp [creativeUpscaleExecute, h]⟩

/-- C7 witness: the amended theorem applied at a response with a base64
payload and at a response without one. -/
theorem C7_single_image_response_shaping_witness :
    (removeBackgroundExecute ⟨⟨"https://x/y.png", some "QUJD"⟩⟩ = [.image "QUJD"] ∧
      crispUpscaleExecute ⟨⟨"https://x/y.png", some "QUJD"⟩⟩ = [.image "QUJD"] ∧
      creativeUpscaleExecute ⟨⟨"https://x/y.png", some "QUJD"⟩⟩ = [.image "QUJD"]) ∧
    (removeBackgroundExecute ⟨⟨"https://x/y.svg", none⟩⟩ = [.text "https://x/y.svg"] ∧
      crispUpscaleExecute ⟨⟨"https://x/y.svg", none⟩⟩ = [.text "https://x/y.svg"] ∧
      creativeUpscaleExecute ⟨⟨"https://x/y.svg", none⟩⟩ = [.text "https://x/y.svg"]) :=
  ⟨C7_single_image_response_shaping.1 ⟨⟨"https://x/y.png", some "QUJD"⟩⟩ "QUJD"
      rfl (by decide),
   C7_single_image_response_shaping.2.1 ⟨⟨"https://x/y.svg", none⟩⟩ (by decide)⟩

/-- C8: the get_user_info output text contains none of the user's name,
email or credit balance. RecraftHandlers.handleGetUserInfo wraps the
upstream response in a content envelope, and the execute function reads
the name, email and credits properties off that envelope, so every call
produces the fixed text interpolating three undefined values; at the stub
response the output contains neither A, a@b.com nor 10. -/
theorem C8_get_user_info_text_has_no_user_fields :
    (∀ u : RecraftUserInfoResponse,
      serverGetUserInfoText u = "User: undefined (undefined)\nCredits: undefined") ∧
    strContains (serverGetUserInfoText ⟨"u1", "A", "a@b.com", 10⟩) "A" = false ∧
    strContains (serverGetUserInfoText ⟨"u1", "A", "a@b.com", 10⟩) "a@b.com" = false ∧
    strContains (serverGetUserInfoText ⟨"u1", "A", "a@b.com", 10⟩) "10" = false ∧
    getUserInfoExecute ⟨"u1", "A", "a@b.com", 10⟩ =
      [.text "User: undefined (undefined)\nCredits: undefined"] := by
  exact ⟨fun u => rfl, by decide, by decide, by decide, rfl⟩

/-- C9 counterexample: when the upstream multi-image response has an empty
data array, the image_to_image execute fails with a
property-access-on-undefined TypeError, not with the explicit no-image-data
error. -/
theorem C9_counterexample_i2i_null_deref :
    imageToImageExecute ⟨some []⟩ =
      .error (.typeError "Cannot read properties of undefined (reading \"url\")") ∧
    imageToImageExecute ⟨some []⟩ ≠
      .error (.userError "Failed to generate image: No image data received") := by
  exact ⟨rfl, by decide⟩

/-- C9 (amended): only generate_image guards the missing first entry with
the explicit no-image-data error; image_to_image, inpaint_image and
replace_background dereference the missing entry and fail with a
TypeError. -/
theorem C9_missing_first_entry_behaviour :
    (∀ (a : GenArgs) (r : RecraftImagesResponse),
      r.data = none ∨ r.data = some [] →
      generateImageExecute a r =
        .error (.userError "Failed to generate image: No image data received")) ∧
    (∀ r : RecraftImagesResponse, r.data = some [] →
      imageToImageExecute r =
        .error (.typeError "Cannot read properties of undefined (reading \"url\")") ∧
      inpaintImageExecute r =
        .error (.typeError "Cannot read properties of undefined (reading \"url\")") ∧
      replaceBackgroundExecute r =
        .error (.typeError "Cannot read properties of undefined (reading \"url\")")) ∧
    (∀ r : RecraftImagesResponse, r.data = none →
      imageToImageExecute r =
        .error (.typeError "Cannot read properties of undefined (reading \"0\")") ∧
      inpaintImageExecute r =
        .error (.typeError "Cannot read properties of undefined (reading \"0\")") ∧
      replaceBackgroundExecute r =
        .error (.typeError "Cannot read properties of undefined (reading \"0\")")) := by
  refine ⟨?_, ?_, ?_⟩
  · intro a r h
    rcases h with h | h <;> simp [generateImageExecute, h]
  · intro r h
    exact ⟨by simp [imageToImageExecute, firstB64, truthyOptStr, h],
      by simp [inpaintImageExecute, firstB64, truthyOptStr, h],
      by simp [replaceBackgroundExecute, firstB64, truthyOptStr, h]⟩
  · intro r h
    exact ⟨by simp [imageToImageExecute, firstB64, truthyOptStr, h],
      by simp [inpaintImageExecute, firstB64, truthyOptStr, h],
      by simp [replaceBackgroundExecute, firstB64, truthyOptStr, h]⟩

/-- C9 witness: the amended theorem applied at an empty data array and at
a missing data array. -/
theorem C9_missing_first_entry_behaviour_witness :
    generateImageExecute { prompt := "cat" } ⟨some []⟩ =
      .error (.userError "Failed to generate image: No image data received") ∧
    (imageToImageExecute ⟨some []⟩ =
        .error (.typeError "Cannot read properties of undefined (reading \"url\")") ∧
      inpaintImageExecute ⟨some []⟩ =
        .error (.typeError "Cannot read properties of undefined (reading \"url\")") ∧
      replaceBackgroundExecute ⟨some []⟩ =
        .error (.typeError "Cannot read properties of undefined (reading \"url\")")) ∧
    (imageToImageExecute ⟨none⟩ =
        .error (.typeError "Cannot read properties of undefined (reading \"0\")") ∧
      inpaintImageExecute ⟨none⟩ =
        .error (.typeError "Cannot read properties of undefined (reading \"0\")") ∧
      replaceBackgroundExecute ⟨none⟩ =
        .error (.typeError "Cannot read properties of undefined (reading \"0\")")) :=
  ⟨C9_missing_first_entry_behaviour.1 { prompt := "cat" } ⟨some []⟩ (Or.inr rfl),
   C9_missing_first_entry_behaviour.2.1 ⟨some []⟩ rfl,
   C9_missing_first_entry_behaviour.2.2 ⟨none⟩ rfl⟩

/-- C10: a successful generate_image validation leads to exactly one
upstream generations call carrying the whole validated argument object,
and the JSON body serialized from those arguments includes the local-only
disk-save fields whenever they are present, rather than stripping them. -/
theorem C10_generate_body_serializes_entire_args :
    (∀ (up : GenArgs → RecraftImagesResponse) (t : GenTop) (v : GenArgs),
      generateImageArgsParse t = .ok v →
      handleGenerateImagePipeline up t = ⟨[.generations v], .ok (up v)⟩) ∧
    (∀ (a : GenArgs) (b : Bool), a.save_to_disk = some b →
      ("save_to_disk", JSVal.boolV b) ∈ generateImageRequestBody a) ∧
    (∀ (a : GenArgs) (p : String), a.file_path = some p →
      ("file_path", JSVal.strV p) ∈ generateImageRequestBody a) := by
  refine ⟨?_, ?_, ?_⟩
  · intro up t v h
    unfold handleGenerateImagePipeline
    rw [h]
  · intro a b h
    simp [generateImageRequestBody, optEntry, h]
  · intro a p h
    simp [generateImageRequestBody, optEntry, h]

/-- C10 witness: the theorem applied at concrete validated arguments with
both disk-save fields present, and at a concrete valid input with a stub
upstream. -/
theorem C10_generate_body_serializes_entire_args_witness :
    ("save_to_disk", JSVal.boolV true) ∈ generateImageRequestBody
      { prompt := "cat", save_to_disk := some true, file_path := some "/tmp/x.png" } ∧
    ("file_path", JSVal.strV "/tmp/x.png") ∈ generateImageRequestBody
      { prompt := "cat", save_to_disk := some true, file_path := some "/tmp/x.png" } ∧
    handleGenerateImagePipeline (fun _ => ⟨none⟩) (.obj { prompt := .str "cat" }) =
      ⟨[.generations { prompt := "cat" }], .ok ⟨none⟩⟩ :=
  ⟨C10_generate_body_serializes_entire_args.2.1 _ true rfl,
   C10_generate_body_serializes_entire_args.2.2 _ "/tmp/x.png" rfl,
   C10_generate_body_serializes_entire_args.1 (fun _ => ⟨none⟩) _
     { prompt := "cat" } (by decide)⟩

end Recraft
